import Mathlib

/-!
Verification of the multi-turn coding-assistant chat client
(`src/assessment.js`) against its specification.

The program is embedded shallowly:
* `loadEnv` / `parseLine` model the `.env` parser;
* `startup` models the `GITHUB_TOKEN` check and client construction;
* `loopStep` models one iteration of the `while (true)` loop in `main`,
  with the outcome of the network call supplied by an oracle
  (`Except ApiError Response`);
* `runMain` folds `loopStep` over a list of (input, outcome) turns.
-/

set_option maxRecDepth 20000

namespace Assessment

/-- Message roles, mirroring the `role` field of entries of
`conversationHistory`. -/
inductive Role where
  | system
  | user
  | assistant
deriving DecidableEq

/-- One entry of `conversationHistory`: `{ role, content }`. -/
structure Message where
  role : Role
  content : String
deriving DecidableEq

/-! ### String primitives

The JavaScript string methods used by the source (`trim`,
`toLowerCase`, `startsWith`, `split("\n")`, `indexOf`/`substring`) are
embedded as executable functions on the character list of a string. -/

/-- `String.prototype.trim`: drop leading and trailing whitespace
characters. -/
def trimChars (l : List Char) : List Char :=
  ((l.dropWhile Char.isWhitespace).reverse.dropWhile Char.isWhitespace).reverse

/-- `s.trim()`. -/
def trimS (s : String) : String := String.mk (trimChars s.toList)

/-- Lower-case one character (ASCII, as the source only compares
against the ASCII word "exit"). -/
def lowerChar (c : Char) : Char :=
  if 'A' ≤ c ∧ c ≤ 'Z' then Char.ofNat (c.toNat + 32) else c

/-- `s.toLowerCase()`. -/
def lowerS (s : String) : String := String.mk (s.toList.map lowerChar)

/-- Split a character list on a separator character; a JS
`split(sep)`, so `[[]]` on the empty input and a trailing separator
yields a trailing empty piece. -/
def splitOnChar (sep : Char) : List Char → List (List Char)
  | [] => [[]]
  | c :: cs =>
    let rest := splitOnChar sep cs
    if c = sep then [] :: rest
    else
      match rest with
      | [] => [[c]]
      | r :: rs => (c :: r) :: rs

/-- `s.split("\n")`. -/
def splitLines (s : String) : List String :=
  (splitOnChar '\n' s.toList).map String.mk

/-- `s.startsWith(p)`. -/
def startsWithS (s p : String) : Bool := p.toList.isPrefixOf s.toList

/-! ### Config loader (`loadEnv`, lines 15–33) -/

/-- Split a character list at the first `'='` (mirrors
`trimmed.indexOf("=")` followed by the two `substring` calls):
returns the characters strictly before the first `'='` and the
characters strictly after it, or `none` when no `'='` occurs
(`eqIndex === -1`). -/
def splitFirstEq : List Char → Option (List Char × List Char)
  | [] => none
  | c :: cs =>
    if c = '=' then some ([], cs)
    else
      match splitFirstEq cs with
      | none => none
      | some (k, v) => some (c :: k, v)

/-- Process one line of the `.env` file: trim it, skip it when empty or
starting with `#`, otherwise split at the first `=` and trim key and
value (lines 20–27 of the source). -/
def parseLine (line : String) : Option (String × String) :=
  let trimmed := trimS line
  if trimmed = "" then none
  else if startsWithS trimmed "#" then none
  else
    match splitFirstEq trimmed.toList with
    | none => none
    | some (k, v) => some (trimS (String.mk k), trimS (String.mk v))

/-- The process environment, as an association list. -/
abbrev EnvMap := List (String × String)

/-- `process.env[key] = value`: overwrite an existing binding of `key`,
otherwise add a new one. -/
def setEnv (env : EnvMap) (k v : String) : EnvMap :=
  match env with
  | [] => [(k, v)]
  | (k', v') :: rest => if k' = k then (k, v) :: rest else (k', v') :: setEnv rest k v

/-- `process.env[key]` lookup. -/
def lookupEnv (env : EnvMap) (k : String) : Option String :=
  match env with
  | [] => none
  | (k', v') :: rest => if k' = k then some v' else lookupEnv rest k

/-- The effect of one `.env` line on the environment. -/
def applyLine (env : EnvMap) (line : String) : EnvMap :=
  match parseLine line with
  | none => env
  | some (k, v) => setEnv env k v

/-- The body of `loadEnv`: split the file on `"\n"` and process each
line in order. -/
def loadEnv (envFile : String) (env : EnvMap) : EnvMap :=
  (splitLines envFile).foldl applyLine env

/-! ### Startup: token check and client construction (lines 37–49) -/

/-- The three lines printed when `GITHUB_TOKEN` is missing. -/
def fatalMsgs : List String :=
  ["❌ GITHUB_TOKEN not found in your .env file.",
   "Please make sure your .env file contains:",
   "GITHUB_TOKEN=your_token_here"]

/-- The configured OpenAI client (`new OpenAI({ baseURL, apiKey })`). -/
structure ClientConfig where
  baseURL : String
  apiKey : String
deriving DecidableEq

/-- Result of startup: either the process exits with a code after
printing messages, or a client is constructed and the loop may run. -/
inductive StartupResult where
  | fatal (code : Nat) (msgs : List String)
  | ready (client : ClientConfig)
deriving DecidableEq

/-- Lines 37–49: read `GITHUB_TOKEN` from the environment; if it is
absent or empty (`!token`), print guidance and exit with code 1;
otherwise construct the client. -/
def startup (env : EnvMap) : StartupResult :=
  match lookupEnv env "GITHUB_TOKEN" with
  | none => .fatal 1 fatalMsgs
  | some t => if t = "" then .fatal 1 fatalMsgs
      else .ready ⟨"https://models.inference.ai.azure.com", t⟩

/-! ### Completion client (`chat`, lines 75–96) -/

/-- The request issued by `client.chat.completions.create`. -/
structure Request where
  model : String
  messages : List Message
  temperature : ℚ
  max_tokens : Nat
deriving DecidableEq

/-- Build the request exactly as `chat` does (lines 81–86). -/
def mkRequest (hist : List Message) : Request :=
  { model := "gpt-4o", messages := hist, temperature := 7/10, max_tokens := 1024 }

/-- A successful HTTP response: the message texts of its choices
(`response.choices[i].message.content`). -/
structure Response where
  choices : List String
deriving DecidableEq

/-- A failed call: an error object with an optional HTTP `status` and a
`message`. -/
structure ApiError where
  status : Option Nat
  message : String
deriving DecidableEq

/-- The initial `conversationHistory` (lines 58–72): exactly one system
message. -/
def conversationHistory : List Message :=
  [⟨Role.system,
    "You are an expert coding assistant with deep knowledge across multiple programming languages and software development concepts. Your role is to:\n    \n- Help developers understand programming concepts clearly\n- Provide accurate, working code examples\n- Assist with debugging and troubleshooting\n- Suggest best practices and clean code principles\n- Support languages including JavaScript, Python, Java, C++, TypeScript, and more\n- Explain complex topics in a simple, easy-to-understand way\n\nAlways format code examples using proper code blocks. Be concise but thorough in your explanations."⟩]

/-! ### Interaction loop (`main`, lines 108–149) -/

/-- Error classification of the `catch` block (lines 136–147). -/
def classifyError (e : ApiError) : String :=
  if e.status = some 401 then
    "\n❌ Authentication Error: Your GITHUB_TOKEN is invalid or missing.\nPlease check your .env file and try again.\n"
  else if e.status = some 429 then
    "\n⚠️  Rate Limit Reached: Too many requests. Please wait a moment.\n"
  else if e.status = some 500 then
    "\n⚠️  Server Error: The AI service is temporarily unavailable.\n"
  else
    "\n❌ Unexpected Error: " ++ e.message ++ "\n"

/-- Everything one loop iteration does: the updated
`conversationHistory`, the network requests issued, the console lines
printed, and whether the loop `break`s. -/
structure TurnEffect where
  newHistory : List Message
  requests : List Request
  output : List String
  terminated : Bool
deriving DecidableEq

/-- One iteration of the `while (true)` loop (lines 117–148), given the
line read from the user and the oracle outcome of the (single) network
call a dispatching turn would make.  An `.ok` response with no choices
models `response.choices[0]` being `undefined`, whose field access
throws and is caught by the generic branch. -/
def loopStep (hist : List Message) (userInput : String)
    (outcome : Except ApiError Response) : TurnEffect :=
  if trimS (lowerS userInput) = "exit" then
    { newHistory := hist, requests := [],
      output := ["\nGoodbye! Happy coding! 👋"], terminated := true }
  else if trimS userInput = "" then
    { newHistory := hist, requests := [],
      output := ["(Please type a question or type \"exit\" to quit.)\n"],
      terminated := false }
  else
    let userMessage := trimS userInput
    let hist1 := hist ++ [⟨Role.user, userMessage⟩]
    let req := mkRequest hist1
    match outcome with
    | .ok resp =>
      match resp.choices with
      | reply :: _ =>
        { newHistory := hist1 ++ [⟨Role.assistant, reply⟩],
          requests := [req],
          output := ["\nBot: Thinking...", "\nBot: " ++ reply ++ "\n",
                     "-----------------------------------------\n"],
          terminated := false }
      | [] =>
        { newHistory := hist1, requests := [req],
          output := ["\nBot: Thinking...",
                     classifyError ⟨none, "Cannot read properties of undefined (reading 'message')"⟩],
          terminated := false }
    | .error e =>
      { newHistory := hist1, requests := [req],
        output := ["\nBot: Thinking...", classifyError e],
        terminated := false }

/-- One turn of the session: the input line and the oracle outcome of
the network call (unused when no call is made). -/
abbrev Turn := String × Except ApiError Response

/-- Outcome of running `main` on a list of turns. -/
structure ProgramResult where
  exitCode : Option Nat
  history : List Message
  requests : List Request
  output : List String
deriving DecidableEq

/-- Run the loop of `main` over a list of turns.  When a turn
terminates the loop, `main` returns and the process exits with code 0;
when input runs out the loop is still awaiting input (`exitCode =
none`). -/
def runMain (hist : List Message) : List Turn → ProgramResult
  | [] => ⟨none, hist, [], []⟩
  | (i, o) :: rest =>
    let eff := loopStep hist i o
    if eff.terminated then ⟨some 0, eff.newHistory, eff.requests, eff.output⟩
    else
      let r := runMain eff.newHistory rest
      ⟨r.exitCode, r.history, eff.requests ++ r.requests, eff.output ++ r.output⟩

/-- The whole process after config loading: check the token; on
failure exit with code 1 having issued no request; on success run the
loop from the initial `conversationHistory`. -/
def program (env : EnvMap) (turns : List Turn) : ProgramResult :=
  match startup env with
  | .fatal c msgs => ⟨some c, [], [], msgs⟩
  | .ready _ => runMain conversationHistory turns

/-- A turn is successful when its input is neither `exit` nor blank and
its call returns a response with at least one choice. -/
def turnOK : Turn → Bool
  | (input, outcome) =>
    trimS (lowerS input) ≠ "exit" && trimS input ≠ "" &&
      match outcome with
      | .ok resp => !resp.choices.isEmpty
      | .error _ => false

/-- `rest` is a sequence of (user, assistant) pairs. -/
def userAssistantPairs : List Message → Bool
  | [] => true
  | u :: a :: rest =>
    u.role = Role.user && a.role = Role.assistant && userAssistantPairs rest
  | [_] => false

/-- A transcript is well formed when it is one system message followed
by (user, assistant) pairs. -/
def wellFormedTranscript : List Message → Bool
  | s :: rest => s.role = Role.system && userAssistantPairs rest
  | [] => false

/-! ### Helper lemmas -/

/-- `splitFirstEq` on a list whose first `'='` separates `k` from `v`
recovers exactly `(k, v)`. -/
lemma splitFirstEq_append (k v : List Char) (hk : '=' ∉ k) :
    splitFirstEq (k ++ '=' :: v) = some (k, v) := by
  induction k with
  | nil => simp [splitFirstEq]
  | cons c cs ih =>
    have hc : c ≠ '=' := fun h => hk (h ▸ List.mem_cons_self c cs)
    have hcs : '=' ∉ cs := fun h => hk (List.mem_cons_of_mem c h)
    simp [splitFirstEq, hc, ih hcs]

/-- A dispatching turn (neither `exit` nor blank) whose call fails:
the user message alone is appended and the single request is recorded. -/
lemma loopStep_error (hist : List Message) (input : String) (e : ApiError)
    (h1 : trimS (lowerS input) ≠ "exit") (h2 : trimS input ≠ "") :
    loopStep hist input (.error e) =
      { newHistory := hist ++ [⟨Role.user, trimS input⟩],
        requests := [mkRequest (hist ++ [⟨Role.user, trimS input⟩])],
        output := ["\nBot: Thinking...", classifyError e],
        terminated := false } := by
  simp only [loopStep, if_neg h1, if_neg h2]

/-- A dispatching turn whose call returns a response with a first
choice: user and assistant messages are appended. -/
lemma loopStep_ok (hist : List Message) (input : String)
    (reply : String) (more : List String)
    (h1 : trimS (lowerS input) ≠ "exit") (h2 : trimS input ≠ "") :
    loopStep hist input (.ok ⟨reply :: more⟩) =
      { newHistory := (hist ++ [⟨Role.user, trimS input⟩]) ++ [⟨Role.assistant, reply⟩],
        requests := [mkRequest (hist ++ [⟨Role.user, trimS input⟩])],
        output := ["\nBot: Thinking...", "\nBot: " ++ reply ++ "\n",
                   "-----------------------------------------\n"],
        terminated := false } := by
  simp only [loopStep, if_neg h1, if_neg h2]

/-- Every dispatching turn issues exactly the one request built from
the transcript with the trimmed user message appended. -/
lemma loopStep_requests (hist : List Message) (input : String)
    (o : Except ApiError Response)
    (h1 : trimS (lowerS input) ≠ "exit") (h2 : trimS input ≠ "") :
    (loopStep hist input o).requests =
      [mkRequest (hist ++ [⟨Role.user, trimS input⟩])] := by
  cases o with
  | ok resp =>
    cases hr : resp.choices with
    | nil =>
      obtain ⟨cs⟩ := resp
      simp only at hr
      subst hr
      simp only [loopStep, if_neg h1, if_neg h2]
    | cons reply more =>
      obtain ⟨cs⟩ := resp
      simp only at hr
      subst hr
      rw [loopStep_ok hist input reply more h1 h2]
  | error e => rw [loopStep_error hist input e h1 h2]

/-- The transcript is append-only: whatever the input and outcome, the
previous transcript is an initial segment of the new one. -/
lemma loopStep_extends (hist : List Message) (input : String)
    (o : Except ApiError Response) :
    hist <+: (loopStep hist input o).newHistory := by
  by_cases h1 : trimS (lowerS input) = "exit"
  · simp [loopStep, h1]
  by_cases h2 : trimS input = ""
  · simp [loopStep, h1, h2]
  cases o with
  | ok resp =>
    cases hr : resp.choices with
    | nil =>
      obtain ⟨cs⟩ := resp
      simp only at hr
      subst hr
      simp only [loopStep, if_neg h1, if_neg h2]
      exact ⟨[⟨Role.user, trimS input⟩], rfl⟩
    | cons reply more =>
      obtain ⟨cs⟩ := resp
      simp only at hr
      subst hr
      rw [loopStep_ok hist input reply more h1 h2]
      exact ⟨[⟨Role.user, trimS input⟩, ⟨Role.assistant, reply⟩], by simp⟩
  | error e =>
    rw [loopStep_error hist input e h1 h2]
    exact ⟨[⟨Role.user, trimS input⟩], rfl⟩

/-- Unpack the `turnOK` boolean. -/
lemma turnOK_spec (input : String) (o : Except ApiError Response)
    (h : turnOK (input, o) = true) :
    trimS (lowerS input) ≠ "exit" ∧ trimS input ≠ "" ∧
      ∃ reply more, o = .ok ⟨reply :: more⟩ := by
  simp only [turnOK, Bool.and_eq_true, decide_eq_true_eq] at h
  obtain ⟨⟨hexit, hblank⟩, hcall⟩ := h
  refine ⟨hexit, hblank, ?_⟩
  cases o with
  | ok resp =>
    obtain ⟨cs⟩ := resp
    cases cs with
    | nil => simp at hcall
    | cons reply more => exact ⟨reply, more, rfl⟩
  | error e => simp at hcall

/-- Running only successful turns appends one (user, assistant) pair
per turn and never ends the loop. -/
lemma runMain_success (hist : List Message) (turns : List Turn)
    (h : ∀ t ∈ turns, turnOK t = true) :
    ∃ tail, (runMain hist turns).history = hist ++ tail ∧
      tail.length = 2 * turns.length ∧
      userAssistantPairs tail = true ∧
      (runMain hist turns).exitCode = none := by
  induction turns generalizing hist with
  | nil => exact ⟨[], by simp [runMain], by simp, rfl, rfl⟩
  | cons t rest ih =>
    obtain ⟨input, o⟩ := t
    obtain ⟨h1, h2, reply, more, ho⟩ :=
      turnOK_spec input o (h _ (List.mem_cons_self _ _))
    subst ho
    have hstep := loopStep_ok hist input reply more h1 h2
    have hrest : ∀ t ∈ rest, turnOK t = true :=
      fun t ht => h t (List.mem_cons_of_mem _ ht)
    obtain ⟨tail, htl, hlen, hpairs, hexit⟩ :=
      ih (hist ++ [⟨Role.user, trimS input⟩] ++ [⟨Role.assistant, reply⟩]) hrest
    refine ⟨⟨Role.user, trimS input⟩ :: ⟨Role.assistant, reply⟩ :: tail, ?_, ?_, ?_, ?_⟩
    · simp only [runMain, hstep]
      simp only [htl]
      simp [List.append_assoc]
    · simp only [List.length_cons, hlen, List.length_cons]
      omega
    · simp [userAssistantPairs, hpairs]
    · simp only [runMain, hstep]
      simpa using hexit

/-! ### Claims -/

/-- C1: for every sequence of N successful turns (non-empty,
non-`exit` input and a successful completion call), the transcript
contains exactly 1 + 2N messages — one system message then N
(user, assistant) pairs in order — and every step only extends the
transcript, never removing or modifying an appended message. -/
theorem transcript_shape_after_successful_turns
    (turns : List Turn) (h : ∀ t ∈ turns, turnOK t = true) :
    ((runMain conversationHistory turns).history.length = 1 + 2 * turns.length
      ∧ wellFormedTranscript (runMain conversationHistory turns).history = true)
    ∧ ∀ (hist : List Message) (input : String) (o : Except ApiError Response),
        hist <+: (loopStep hist input o).newHistory := by
  refine ⟨⟨?_, ?_⟩, fun hist input o => loopStep_extends hist input o⟩
  · obtain ⟨tail, htl, hlen, _, _⟩ := runMain_success conversationHistory turns h
    rw [htl]
    simp only [List.length_append, hlen, conversationHistory, List.length_singleton]
  · obtain ⟨tail, htl, _, hpairs, _⟩ := runMain_success conversationHistory turns h
    rw [htl]
    simp [conversationHistory, wellFormedTranscript, hpairs]

/-- Witness for C1 at a concrete two-turn session. -/
theorem transcript_shape_after_successful_turns_witness :
    (∀ t ∈ ([("hi", .ok ⟨["hello"]⟩), (" explain maps ", .ok ⟨["sure"]⟩)] : List Turn),
        turnOK t = true)
    ∧ (((runMain conversationHistory
            [("hi", .ok ⟨["hello"]⟩), (" explain maps ", .ok ⟨["sure"]⟩)]).history.length =
          1 + 2 * ([("hi", .ok ⟨["hello"]⟩), (" explain maps ", .ok ⟨["sure"]⟩)] : List Turn).length
        ∧ wellFormedTranscript (runMain conversationHistory
            [("hi", .ok ⟨["hello"]⟩), (" explain maps ", .ok ⟨["sure"]⟩)]).history = true)
      ∧ ∀ (hist : List Message) (input : String) (o : Except ApiError Response),
          hist <+: (loopStep hist input o).newHistory) :=
  ⟨by decide, transcript_shape_after_successful_turns _ (by decide)⟩

/-- C2: a dispatching turn whose call fails grows the transcript by
exactly the one user message, with no assistant message; the dangling
user message is contained in the request of the next dispatching
turn. -/
theorem failed_turn_appends_user_only
    (hist : List Message) (input : String) (e : ApiError)
    (h1 : trimS (lowerS input) ≠ "exit") (h2 : trimS input ≠ "") :
    (loopStep hist input (.error e)).newHistory = hist ++ [⟨Role.user, trimS input⟩]
    ∧ (loopStep hist input (.error e)).newHistory.length = hist.length + 1
    ∧ ∀ (input' : String) (o' : Except ApiError Response),
        trimS (lowerS input') ≠ "exit" → trimS input' ≠ "" →
        ∃ req, (loopStep (loopStep hist input (.error e)).newHistory input' o').requests = [req]
          ∧ ⟨Role.user, trimS input⟩ ∈ req.messages := by
  rw [loopStep_error hist input e h1 h2]
  refine ⟨rfl, by simp, ?_⟩
  intro input' o' h1' h2'
  refine ⟨_, loopStep_requests _ input' o' h1' h2', ?_⟩
  simp [mkRequest]

/-- Witness for C2 at a concrete failed turn. -/
theorem failed_turn_appends_user_only_witness :
    trimS (lowerS "hi") ≠ "exit" ∧ trimS "hi" ≠ ""
    ∧ ((loopStep [] "hi" (.error ⟨some 429, "x"⟩)).newHistory =
          [] ++ [⟨Role.user, trimS "hi"⟩]
      ∧ (loopStep [] "hi" (.error ⟨some 429, "x"⟩)).newHistory.length =
          List.length ([] : List Message) + 1
      ∧ ∀ (input' : String) (o' : Except ApiError Response),
          trimS (lowerS input') ≠ "exit" → trimS input' ≠ "" →
          ∃ req, (loopStep (loopStep [] "hi" (.error ⟨some 429, "x"⟩)).newHistory
                    input' o').requests = [req]
            ∧ ⟨Role.user, trimS "hi"⟩ ∈ req.messages) :=
  ⟨by decide, by decide,
    failed_turn_appends_user_only [] "hi" ⟨some 429, "x"⟩ (by decide) (by decide)⟩

/-- C3: a line that is non-empty after trimming, not a comment, and
contains `=` yields exactly one entry: key is the trimmed part before
the first `=`, value the trimmed part after it (which may itself
contain `=`); and the concrete three-line file from the spec loads to
exactly the two expected entries. -/
theorem wellformed_env_line
    (line : String) (k v : List Char)
    (h1 : trimS line ≠ "")
    (h2 : startsWithS (trimS line) "#" = false)
    (h3 : (trimS line).toList = k ++ '=' :: v)
    (h4 : '=' ∉ k) :
    (parseLine line = some (trimS (String.mk k), trimS (String.mk v))
      ∧ ∀ env : EnvMap,
          applyLine env line = setEnv env (trimS (String.mk k)) (trimS (String.mk v)))
    ∧ loadEnv "GITHUB_TOKEN=abc123\n# comment\nFOO=bar=baz" [] =
        [("GITHUB_TOKEN", "abc123"), ("FOO", "bar=baz")] := by
  have hp : parseLine line = some (trimS (String.mk k), trimS (String.mk v)) := by
    simp only [parseLine]
    rw [if_neg h1, if_neg (by simp [h2] : ¬ startsWithS (trimS line) "#" = true)]
    rw [h3, splitFirstEq_append k v h4]
  exact ⟨⟨hp, fun env => by simp [applyLine, hp]⟩, by decide⟩

/-- Witness for C3: the line `"FOO = bar=baz"` splits at the first
`=`. -/
theorem wellformed_env_line_witness :
    trimS "FOO = bar=baz" ≠ ""
    ∧ startsWithS (trimS "FOO = bar=baz") "#" = false
    ∧ (trimS "FOO = bar=baz").toList =
        ['F', 'O', 'O', ' '] ++ '=' :: [' ', 'b', 'a', 'r', '=', 'b', 'a', 'z']
    ∧ '=' ∉ ['F', 'O', 'O', ' ']
    ∧ ((parseLine "FOO = bar=baz" =
          some (trimS (String.mk ['F', 'O', 'O', ' ']),
                trimS (String.mk [' ', 'b', 'a', 'r', '=', 'b', 'a', 'z']))
        ∧ ∀ env : EnvMap,
            applyLine env "FOO = bar=baz" =
              setEnv env (trimS (String.mk ['F', 'O', 'O', ' ']))
                (trimS (String.mk [' ', 'b', 'a', 'r', '=', 'b', 'a', 'z'])))
      ∧ loadEnv "GITHUB_TOKEN=abc123\n# comment\nFOO=bar=baz" [] =
          [("GITHUB_TOKEN", "abc123"), ("FOO", "bar=baz")]) :=
  ⟨by decide, by decide, by decide, by decide,
    wellformed_env_line "FOO = bar=baz" _ _ (by decide) (by decide) (by decide) (by decide)⟩

/-- C4: a line that trims to empty or whose trimmed form starts with
`#` produces no entry and leaves the environment unchanged. -/
theorem blank_or_comment_line_ignored
    (line : String) (env : EnvMap)
    (h : trimS line = "" ∨ startsWithS (trimS line) "#" = true) :
    parseLine line = none ∧ applyLine env line = env := by
  have hp : parseLine line = none := by
    cases h with
    | inl h0 => simp [parseLine, h0]
    | inr hc =>
      by_cases h0 : trimS line = ""
      · simp [parseLine, h0]
      · simp [parseLine, h0, hc]
  exact ⟨hp, by simp [applyLine, hp]⟩

/-- Witness for C4 on a comment line. -/
theorem blank_or_comment_line_ignored_witness :
    (trimS "   # note" = "" ∨ startsWithS (trimS "   # note") "#" = true)
    ∧ (parseLine "   # note" = none
      ∧ applyLine [("A", "b")] "   # note" = [("A", "b")]) :=
  ⟨by decide, blank_or_comment_line_ignored "   # note" [("A", "b")] (by decide)⟩

/-- C5: when `GITHUB_TOKEN` is absent after config loading, startup is
fatal with exit code 1, the guidance names the expected variable, no
client is constructed and the program issues no request. -/
theorem missing_token_exits_before_network
    (env : EnvMap) (turns : List Turn)
    (h : lookupEnv env "GITHUB_TOKEN" = none) :
    startup env = .fatal 1 fatalMsgs
    ∧ program env turns = ⟨some 1, [], [], fatalMsgs⟩
    ∧ (program env turns).requests = []
    ∧ "❌ GITHUB_TOKEN not found in your .env file." ∈ fatalMsgs
    ∧ "GITHUB_TOKEN=your_token_here" ∈ fatalMsgs := by
  have hs : startup env = .fatal 1 fatalMsgs := by simp [startup, h]
  have hpr : program env turns = ⟨some 1, [], [], fatalMsgs⟩ := by
    simp [program, hs]
  exact ⟨hs, hpr, by simp [hpr], by simp [fatalMsgs], by simp [fatalMsgs]⟩

/-- Witness for C5 with an environment holding no token. -/
theorem missing_token_exits_before_network_witness :
    lookupEnv [("OTHER", "x")] "GITHUB_TOKEN" = none
    ∧ (startup [("OTHER", "x")] = .fatal 1 fatalMsgs
      ∧ program [("OTHER", "x")] [] = ⟨some 1, [], [], fatalMsgs⟩
      ∧ (program [("OTHER", "x")] []).requests = []
      ∧ "❌ GITHUB_TOKEN not found in your .env file." ∈ fatalMsgs
      ∧ "GITHUB_TOKEN=your_token_here" ∈ fatalMsgs) :=
  ⟨by decide, missing_token_exits_before_network [("OTHER", "x")] [] (by decide)⟩

/-- C6: an input that lowers and trims to `exit` ends the loop with a
farewell, no request, no transcript mutation and process exit code 0;
with `exit` as first input the transcript is still the single system
message. -/
theorem exit_input_terminates
    (hist : List Message) (input : String) (o : Except ApiError Response)
    (h : trimS (lowerS input) = "exit") :
    loopStep hist input o =
      { newHistory := hist, requests := [],
        output := ["\nGoodbye! Happy coding! 👋"], terminated := true }
    ∧ (∀ rest : List Turn,
        runMain conversationHistory ((input, o) :: rest) =
          ⟨some 0, conversationHistory, [], ["\nGoodbye! Happy coding! 👋"]⟩)
    ∧ conversationHistory.length = 1
    ∧ conversationHistory.map Message.role = [Role.system] := by
  have hstep : ∀ hist' : List Message,
      loopStep hist' input o =
        { newHistory := hist', requests := [],
          output := ["\nGoodbye! Happy coding! 👋"], terminated := true } :=
    fun hist' => by simp [loopStep, h]
  refine ⟨hstep hist, fun rest => ?_, rfl, rfl⟩
  simp [runMain, hstep conversationHistory]

/-- Witness for C6 at the input `"  EXIT  "`. -/
theorem exit_input_terminates_witness :
    trimS (lowerS "  EXIT  ") = "exit"
    ∧ (loopStep [] "  EXIT  " (.error ⟨none, ""⟩) =
        { newHistory := [], requests := [],
          output := ["\nGoodbye! Happy coding! 👋"], terminated := true }
      ∧ (∀ rest : List Turn,
          runMain conversationHistory (("  EXIT  ", .error ⟨none, ""⟩) :: rest) =
            ⟨some 0, conversationHistory, [], ["\nGoodbye! Happy coding! 👋"]⟩)
      ∧ conversationHistory.length = 1
      ∧ conversationHistory.map Message.role = [Role.system]) :=
  ⟨by decide, exit_input_terminates [] "  EXIT  " (.error ⟨none, ""⟩) (by decide)⟩

/-- C7: a blank (empty or whitespace-only, non-`exit`) input prints
the reminder, mutates nothing, issues no request, and the loop goes on
prompting. -/
theorem blank_input_is_noop
    (hist : List Message) (input : String) (o : Except ApiError Response)
    (h1 : trimS (lowerS input) ≠ "exit") (h2 : trimS input = "") :
    loopStep hist input o =
      { newHistory := hist, requests := [],
        output := ["(Please type a question or type \"exit\" to quit.)\n"],
        terminated := false } := by
  simp [loopStep, h1, h2]

/-- Witness for C7 at a whitespace-only input. -/
theorem blank_input_is_noop_witness :
    trimS (lowerS "   ") ≠ "exit" ∧ trimS "   " = ""
    ∧ loopStep [] "   " (.ok ⟨[]⟩) =
        { newHistory := [], requests := [],
          output := ["(Please type a question or type \"exit\" to quit.)\n"],
          terminated := false } :=
  ⟨by decide, by decide, blank_input_is_noop [] "   " (.ok ⟨[]⟩) (by decide) (by decide)⟩

/-- C8: every dispatching turn issues exactly one request with model
`gpt-4o`, temperature 0.7, max 1024 tokens, and the whole transcript;
on success the reply is the first choice's text; on failure still
exactly that one request was made (no retry). -/
theorem completion_request_parameters
    (hist : List Message) (input : String) (o : Except ApiError Response)
    (h1 : trimS (lowerS input) ≠ "exit") (h2 : trimS input ≠ "") :
    (loopStep hist input o).requests =
        [mkRequest (hist ++ [⟨Role.user, trimS input⟩])]
    ∧ (mkRequest (hist ++ [⟨Role.user, trimS input⟩])).model = "gpt-4o"
    ∧ (mkRequest (hist ++ [⟨Role.user, trimS input⟩])).temperature = 7/10
    ∧ (mkRequest (hist ++ [⟨Role.user, trimS input⟩])).max_tokens = 1024
    ∧ (mkRequest (hist ++ [⟨Role.user, trimS input⟩])).messages =
        hist ++ [⟨Role.user, trimS input⟩]
    ∧ ∀ (reply : String) (more : List String), o = .ok ⟨reply :: more⟩ →
        (loopStep hist input o).newHistory =
          (hist ++ [⟨Role.user, trimS input⟩]) ++ [⟨Role.assistant, reply⟩] := by
  refine ⟨loopStep_requests hist input o h1 h2, rfl, rfl, rfl, rfl, ?_⟩
  intro reply more ho
  subst ho
  rw [loopStep_ok hist input reply more h1 h2]

/-- Witness for C8 at a concrete successful turn. -/
theorem completion_request_parameters_witness :
    trimS (lowerS " hi ") ≠ "exit" ∧ trimS " hi " ≠ ""
    ∧ ((loopStep [] " hi " (.ok ⟨["yo"]⟩)).requests =
          [mkRequest ([] ++ [⟨Role.user, trimS " hi "⟩])]
      ∧ (mkRequest ([] ++ [⟨Role.user, trimS " hi "⟩])).model = "gpt-4o"
      ∧ (mkRequest ([] ++ [⟨Role.user, trimS " hi "⟩])).temperature = 7/10
      ∧ (mkRequest ([] ++ [⟨Role.user, trimS " hi "⟩])).max_tokens = 1024
      ∧ (mkRequest ([] ++ [⟨Role.user, trimS " hi "⟩])).messages =
          [] ++ [⟨Role.user, trimS " hi "⟩]
      ∧ ∀ (reply : String) (more : List String),
          (.ok ⟨reply :: more⟩ : Except ApiError Response) = .ok ⟨reply :: more⟩ →
          (loopStep [] " hi " (.ok ⟨reply :: more⟩)).newHistory =
            ([] ++ [⟨Role.user, trimS " hi "⟩]) ++ [⟨Role.assistant, reply⟩]) := by
  refine ⟨by decide, by decide, ?_⟩
  have h := completion_request_parameters [] " hi " (.ok ⟨["yo"]⟩) (by decide) (by decide)
  refine ⟨h.1, h.2.1, h.2.2.1, h.2.2.2.1, h.2.2.2.2.1, ?_⟩
  intro reply more _
  exact (completion_request_parameters [] " hi " (.ok ⟨reply :: more⟩)
    (by decide) (by decide)).2.2.2.2.2 reply more rfl

/-- C9: a failed call's notice is chosen by status code (401
credential, 429 rate limit, 500 upstream, otherwise generic with the
underlying message) and the loop resumes prompting. -/
theorem error_turn_classified_and_loop_resumes
    (hist : List Message) (input : String) (e : ApiError)
    (h1 : trimS (lowerS input) ≠ "exit") (h2 : trimS input ≠ "") :
    (loopStep hist input (.error e)).terminated = false
    ∧ (loopStep hist input (.error e)).output = ["\nBot: Thinking...", classifyError e]
    ∧ (e.status = some 401 → classifyError e =
        "\n❌ Authentication Error: Your GITHUB_TOKEN is invalid or missing.\nPlease check your .env file and try again.\n")
    ∧ (e.status = some 429 → classifyError e =
        "\n⚠️  Rate Limit Reached: Too many requests. Please wait a moment.\n")
    ∧ (e.status = some 500 → classifyError e =
        "\n⚠️  Server Error: The AI service is temporarily unavailable.\n")
    ∧ (e.status ≠ some 401 → e.status ≠ some 429 → e.status ≠ some 500 →
        classifyError e = "\n❌ Unexpected Error: " ++ e.message ++ "\n") := by
  rw [loopStep_error hist input e h1 h2]
  refine ⟨rfl, rfl, ?_, ?_, ?_, ?_⟩
  · intro hst; simp [classifyError, hst]
  · intro hst; simp [classifyError, hst]
  · intro hst; simp [classifyError, hst]
  · intro ha hb hc; simp [classifyError, ha, hb, hc]

/-- Witness for C9 at a concrete 500 failure. -/
theorem error_turn_classified_and_loop_resumes_witness :
    trimS (lowerS "hi there") ≠ "exit" ∧ trimS "hi there" ≠ ""
    ∧ ((loopStep [] "hi there" (.error ⟨some 500, "boom"⟩)).terminated = false
      ∧ (loopStep [] "hi there" (.error ⟨some 500, "boom"⟩)).output =
          ["\nBot: Thinking...", classifyError ⟨some 500, "boom"⟩]
      ∧ ((⟨some 500, "boom"⟩ : ApiError).status = some 401 →
          classifyError ⟨some 500, "boom"⟩ =
            "\n❌ Authentication Error: Your GITHUB_TOKEN is invalid or missing.\nPlease check your .env file and try again.\n")
      ∧ ((⟨some 500, "boom"⟩ : ApiError).status = some 429 →
          classifyError ⟨some 500, "boom"⟩ =
            "\n⚠️  Rate Limit Reached: Too many requests. Please wait a moment.\n")
      ∧ ((⟨some 500, "boom"⟩ : ApiError).status = some 500 →
          classifyError ⟨some 500, "boom"⟩ =
            "\n⚠️  Server Error: The AI service is temporarily unavailable.\n")
      ∧ ((⟨some 500, "boom"⟩ : ApiError).status ≠ some 401 →
          (⟨some 500, "boom"⟩ : ApiError).status ≠ some 429 →
          (⟨some 500, "boom"⟩ : ApiError).status ≠ some 500 →
          classifyError ⟨some 500, "boom"⟩ =
            "\n❌ Unexpected Error: " ++ (⟨some 500, "boom"⟩ : ApiError).message ++ "\n")) :=
  ⟨by decide, by decide,
    error_turn_classified_and_loop_resumes [] "hi there" ⟨some 500, "boom"⟩
      (by decide) (by decide)⟩

/-- C10: the user message appended to the transcript and sent in the
request is the trimmed input, not the raw line. -/
theorem user_message_is_trimmed_input
    (hist : List Message) (input : String) (o : Except ApiError Response)
    (h1 : trimS (lowerS input) ≠ "exit") (h2 : trimS input ≠ "") :
    (hist ++ [⟨Role.user, trimS input⟩]) <+: (loopStep hist input o).newHistory
    ∧ (loopStep hist input o).requests =
        [mkRequest (hist ++ [⟨Role.user, trimS input⟩])] := by
  refine ⟨?_, loopStep_requests hist input o h1 h2⟩
  cases o with
  | ok resp =>
    obtain ⟨cs⟩ := resp
    cases cs with
    | nil =>
      simp only [loopStep, if_neg h1, if_neg h2]
      exact List.prefix_rfl
    | cons reply more =>
      rw [loopStep_ok hist input reply more h1 h2]
      exact ⟨[⟨Role.assistant, reply⟩], rfl⟩
  | error e =>
    rw [loopStep_error hist input e h1 h2]

/-- Witness for C10 at the raw input `" q "`. -/
theorem user_message_is_trimmed_input_witness :
    trimS (lowerS " q ") ≠ "exit" ∧ trimS " q " ≠ ""
    ∧ (([] ++ [⟨Role.user, trimS " q "⟩]) <+:
          (loopStep [] " q " (.error ⟨some 429, ""⟩)).newHistory
      ∧ (loopStep [] " q " (.error ⟨some 429, ""⟩)).requests =
          [mkRequest ([] ++ [⟨Role.user, trimS " q "⟩])]) :=
  ⟨by decide, by decide,
    user_message_is_trimmed_input [] " q " (.error ⟨some 429, ""⟩) (by decide) (by decide)⟩

end Assessment
